import Mathlib

/-!
Verification of the mio `Evented` registration capability
(src/src/event/evented.rs): the three-operation contract
(register, reregister, deregister) and the blanket forwarding
implementation over `Deref` wrappers.

The `Evented` trait and its blanket implementation are embedded from the
source. External collaborators (`Registry`, `Token`, `Interests`, the io
error type) live outside the given sources and are modelled from the spec.
The mutable registry state hidden behind the shared reference `&Registry`
is threaded explicitly as a `RegistryState` value; methods receiving
`&self` become functions taking the resource value, which they cannot
mutate (the embedding gives them no way to return a changed wrapper).
-/

namespace Mio

universe u v w

/-- Token: an opaque caller-chosen identifier (external collaborator,
spec section 3). Modelled as a natural number with equality. -/
abbrev Token := Nat

/-- Registry handle: the opaque `&Registry` reference passed to every
operation and forwarded verbatim. The mutable state behind it is threaded
separately as `RegistryState`. -/
abbrev Registry := Nat

/-- Interests: a non-empty subset of the readiness conditions readable and
writable (external collaborator, spec sections 3 and 6). The three
constructors are the three non-empty subsets, mirroring the non-zero
bit-set representation. -/
inductive Interests where
  | readable
  | writable
  | readableWritable
deriving DecidableEq

/-- IoError: the uniform error type returned by all three operations
(spec section 7 taxonomy): already-registered, not-registered, or an
underlying system-call failure carrying a platform error code. -/
inductive IoError where
  | alreadyRegistered
  | notRegistered
  | sysError (code : Nat)
deriving DecidableEq

/-- Result type of the three operations: `io::Result<()>`. -/
abbrev IoResult := Except IoError Unit

/-- Modelled from the spec: the state of one Registry (the Registry type
itself is outside the given sources). It records the active associations:
resource identity (a raw handle, as a natural number) together with the
token and interests of its registration. -/
structure RegistryState where
  assoc : List (Nat × Token × Interests)
deriving DecidableEq

/-- Active association of resource `r` in registry state `s`, if any. -/
def RegistryState.lookup (s : RegistryState) (r : Nat) : Option (Token × Interests) :=
  (s.assoc.find? (fun p => p.1 == r)).map (fun p => p.2)

/-- Number of associations a registry state holds for resource `r`. -/
def RegistryState.assocCount (s : RegistryState) (r : Nat) : Nat :=
  s.assoc.countP (fun p => p.1 == r)

/-- Modelled from the spec: the external Registry register operation
reached through `Registry::register` (outside the given sources).
Spec: associates the resource with the registry; register on an
already-registered resource must surface an IoError, never panic and
never silently succeed; on failure no association is created. -/
def registryRegister (s : RegistryState) (r : Nat) (t : Token) (i : Interests) :
    IoResult × RegistryState :=
  match s.lookup r with
  | some _ => (Except.error IoError.alreadyRegistered, s)
  | none => (Except.ok (), ⟨(r, t, i) :: s.assoc⟩)

/-- Modelled from the spec: the external Registry reregister operation
(outside the given sources). Spec: atomically replaces the active token
and interests of an existing association; calling it with no active
association fails with a not-registered error and registers nothing. -/
def registryReregister (s : RegistryState) (r : Nat) (t : Token) (i : Interests) :
    IoResult × RegistryState :=
  match s.lookup r with
  | some _ => (Except.ok (), ⟨(r, t, i) :: s.assoc.filter (fun p => !(p.1 == r))⟩)
  | none => (Except.error IoError.notRegistered, s)

/-- Modelled from the spec: the external Registry deregister operation
(outside the given sources). Spec: removes the association; calling it
with no active association fails with a not-registered error. -/
def registryDeregister (s : RegistryState) (r : Nat) : IoResult × RegistryState :=
  match s.lookup r with
  | some _ => (Except.ok (), ⟨s.assoc.filter (fun p => !(p.1 == r))⟩)
  | none => (Except.error IoError.notRegistered, s)

/-- Embedding of the `Evented` trait (evented.rs lines 73 to 101): a record
of the three operations. Each operation receives the resource by shared
reference (here: as a plain value it cannot return changed), the registry
handle, and for register and reregister a token and interests; it returns
`io::Result<()>` together with the updated registry state. -/
structure EventedImpl (ρ : Type u) where
  register : ρ → Registry → Token → Interests → RegistryState → IoResult × RegistryState
  reregister : ρ → Registry → Token → Interests → RegistryState → IoResult × RegistryState
  deregister : ρ → Registry → RegistryState → IoResult × RegistryState

/-- One `Evented` method invocation on an inner value of type `ρ`, with the
arguments it was given. Used to record which calls a method body performs. -/
inductive EvCall (ρ : Type u) : Type u where
  | register (r : ρ) (g : Registry) (t : Token) (i : Interests) : EvCall ρ
  | reregister (r : ρ) (g : Registry) (t : Token) (i : Interests) : EvCall ρ
  | deregister (r : ρ) (g : Registry) : EvCall ρ

/-- Syntax of a method body as far as the `Evented` capability can observe
it: either return an `io::Result<()>`, or perform one `Evented` call on an
inner value and continue with its result. This lets claims about a body
(exactly one call, result returned unchanged, no retry) be stated about
the body itself rather than only about its value. -/
inductive Prog (ρ : Type u) : Type u where
  | ret (x : IoResult) : Prog ρ
  | call (c : EvCall ρ) (k : IoResult → Prog ρ) : Prog ρ

/-- Dispatch of one recorded call against an implementation. -/
def execCall (e : EventedImpl ρ) (s : RegistryState) : EvCall ρ → IoResult × RegistryState
  | EvCall.register r g t i => e.register r g t i s
  | EvCall.reregister r g t i => e.reregister r g t i s
  | EvCall.deregister r g => e.deregister r g s

/-- Interpreter of a method body against an implementation of the inner
capability: yields the result, the final registry state, and the trace of
inner calls performed, in order. -/
def runProg (e : EventedImpl ρ) : Prog ρ → RegistryState → IoResult × RegistryState × List (EvCall ρ)
  | Prog.ret x, s => (x, s, [])
  | Prog.call c k, s =>
      let r1 := execCall e s c
      let r2 := runProg e (k r1.1) r1.2
      (r2.1, r2.2.1, c :: r2.2.2)

/-- Body of the blanket `register` (evented.rs lines 108 to 110):
`self.deref().register(registry, token, interests)` — one call on the
dereferenced inner value, arguments forwarded verbatim, result returned
unchanged. -/
def blanketRegisterBody (deref : W → ρ) (w : W) (g : Registry) (t : Token) (i : Interests) :
    Prog ρ :=
  Prog.call (EvCall.register (deref w) g t i) Prog.ret

/-- Body of the blanket `reregister` (evented.rs lines 112 to 119):
`self.deref().reregister(registry, token, interests)`. -/
def blanketReregisterBody (deref : W → ρ) (w : W) (g : Registry) (t : Token) (i : Interests) :
    Prog ρ :=
  Prog.call (EvCall.reregister (deref w) g t i) Prog.ret

/-- Body of the blanket `deregister` (evented.rs lines 121 to 123):
`self.deref().deregister(registry)`. -/
def blanketDeregisterBody (deref : W → ρ) (w : W) (g : Registry) : Prog ρ :=
  Prog.call (EvCall.deregister (deref w) g) Prog.ret

/-- Embedding of the blanket implementation
`impl<T, E> Evented for T where T: Deref<Target = E>, E: Evented + ?Sized`
(evented.rs lines 103 to 124): the wrapper type `W` with transparent access
`deref` to an inner `ρ` is itself `Evented`, each operation given by running
the corresponding forwarding body against the inner implementation. -/
def blanketImpl (deref : W → ρ) (e : EventedImpl ρ) : EventedImpl W where
  register w g t i s :=
    let r := runProg e (blanketRegisterBody deref w g t i) s
    (r.1, r.2.1)
  reregister w g t i s :=
    let r := runProg e (blanketReregisterBody deref w g t i) s
    (r.1, r.2.1)
  deregister w g s :=
    let r := runProg e (blanketDeregisterBody deref w g) s
    (r.1, r.2.1)

/-- Follows the words of the spec delegation rule, for comparison with
`blanketImpl`: an ownership wrapper around exactly one inner registrable
resource satisfies the capability by forwarding each of the three
operations verbatim to the inner resource, unchanged in arguments and
return value. -/
def specDelegate (deref : W → ρ) (e : EventedImpl ρ) : EventedImpl W where
  register w g t i s := e.register (deref w) g t i s
  reregister w g t i s := e.reregister (deref w) g t i s
  deregister w g s := e.deregister (deref w) g s

/-- An ownership wrapper holding exactly one inner value, with transparent
read-only access to it: the shape of `Box`-like smart pointers. -/
structure Box (ρ : Type u) : Type u where
  unbox : ρ

/-- Iterated wrapping: `NBox n ρ` is `ρ` under `n` layers of `Box`. -/
def NBox : Nat → Type u → Type u
  | 0, ρ => ρ
  | n + 1, ρ => Box (NBox n ρ)

/-- The `Evented` implementation an `n`-fold wrapped resource receives from
the blanket rule, one application of `blanketImpl` per layer. -/
def nboxEvented {ρ : Type u} : (n : Nat) → EventedImpl ρ → EventedImpl (NBox n ρ)
  | 0, e => e
  | n + 1, e => blanketImpl Box.unbox (nboxEvented n e)

/-- Strip all `n` wrapper layers down to the innermost resource. -/
def nunbox {ρ : Type u} : (n : Nat) → NBox n ρ → ρ
  | 0, x => x
  | n + 1, b => nunbox n b.unbox

/-- A dynamically-typed registrable resource: the trait object
`dyn Evented`, pairing a value with the implementation of its concrete
type. The blanket implementation requires only `E: Evented + ?Sized` of
its target, so this unsized target is admissible. -/
structure DynEvented : Type (u + 1) where
  Carrier : Type u
  impl : EventedImpl Carrier
  val : Carrier

/-- The implementation of the capability carried by the trait object
itself: dynamic dispatch to the underlying concrete implementation. -/
def dynEvented : EventedImpl DynEvented where
  register d g t i s := d.impl.register d.val g t i s
  reregister d g t i s := d.impl.reregister d.val g t i s
  deregister d g s := d.impl.deregister d.val g s

/-- Modelled from the spec: a leaf system-backed resource, identified by
its raw handle (a natural number); its three operations call straight into
the registry operations on the threaded registry state. Concrete resource
types such as sockets live outside the given sources. -/
def sysEvented : EventedImpl Nat where
  register r _g t i s := registryRegister s r t i
  reregister r _g t i s := registryReregister s r t i
  deregister r _g s := registryDeregister s r

/-- Inner implementation whose every operation fails with a system error,
used to exercise error propagation through the blanket implementation. -/
def failImpl : EventedImpl Unit where
  register _ _ _ _ s := (Except.error (IoError.sysError 9), s)
  reregister _ _ _ _ s := (Except.error (IoError.sysError 9), s)
  deregister _ _ s := (Except.error (IoError.sysError 9), s)

/-- Helper: forwarding through `n` layers of `Box` reaches the innermost
resource, whatever the depth. -/
theorem nbox_forwards_aux {ρ : Type u} (e : EventedImpl ρ) (g : Registry) (t : Token)
    (i : Interests) (s : RegistryState) :
    ∀ (n : Nat) (b : NBox n ρ),
      (nboxEvented n e).register b g t i s = e.register (nunbox n b) g t i s ∧
      (nboxEvented n e).reregister b g t i s = e.reregister (nunbox n b) g t i s ∧
      (nboxEvented n e).deregister b g s = e.deregister (nunbox n b) g s
  | 0, _ => ⟨rfl, rfl, rfl⟩
  | n + 1, b => nbox_forwards_aux e g t i s n b.unbox

/-- Claim C1: for every wrapper with transparent access to one inner
resource, each blanket operation returns a result identical to calling the
same operation directly on the inner resource, arguments forwarded
verbatim and the return value passed back unchanged; the code-derived
`blanketImpl` coincides with `specDelegate`, the rule written from the
spec words. -/
theorem blanket_forwards_verbatim {W : Type v} {ρ : Type u} (deref : W → ρ)
    (e : EventedImpl ρ) (w : W) (g : Registry) (t : Token) (i : Interests)
    (s : RegistryState) :
    (blanketImpl deref e).register w g t i s = e.register (deref w) g t i s ∧
    (blanketImpl deref e).reregister w g t i s = e.reregister (deref w) g t i s ∧
    (blanketImpl deref e).deregister w g s = e.deregister (deref w) g s ∧
    (blanketImpl deref e).register w g t i s = (specDelegate deref e).register w g t i s ∧
    (blanketImpl deref e).reregister w g t i s = (specDelegate deref e).reregister w g t i s ∧
    (blanketImpl deref e).deregister w g s = (specDelegate deref e).deregister w g s :=
  ⟨rfl, rfl, rfl, rfl, rfl, rfl⟩

/-- Claim C2: delegation composes recursively: on a wrapper of a wrapper,
each operation equals the same operation on the innermost resource with
the same arguments, and an induction over `n` layers of wrapping shows
nesting depth does not change the result. -/
theorem blanket_composes_recursively {W1 : Type w} {W2 : Type v} {ρ : Type u}
    (d1 : W1 → W2) (d2 : W2 → ρ) (e : EventedImpl ρ) (w : W1) (g : Registry)
    (t : Token) (i : Interests) (s : RegistryState) (n : Nat) (b : NBox n ρ) :
    ((blanketImpl d1 (blanketImpl d2 e)).register w g t i s =
        e.register (d2 (d1 w)) g t i s ∧
      (blanketImpl d1 (blanketImpl d2 e)).reregister w g t i s =
        e.reregister (d2 (d1 w)) g t i s ∧
      (blanketImpl d1 (blanketImpl d2 e)).deregister w g s =
        e.deregister (d2 (d1 w)) g s) ∧
    ((nboxEvented n e).register b g t i s = e.register (nunbox n b) g t i s ∧
      (nboxEvented n e).reregister b g t i s = e.reregister (nunbox n b) g t i s ∧
      (nboxEvented n e).deregister b g s = e.deregister (nunbox n b) g s) :=
  ⟨⟨rfl, rfl, rfl⟩, nbox_forwards_aux e g t i s n b⟩

/-- Claim C8: each blanket-forwarded operation performs exactly one call,
to the corresponding operation of the dereferenced inner value with the
verbatim arguments, and nothing else: the trace of the body is that single
call, and the result and registry state are exactly the inner ones. The
wrapper itself is received by shared reference only: in the embedding an
operation has no way to return a changed wrapper. -/
theorem blanket_single_call_frame {W : Type v} {ρ : Type u} (deref : W → ρ)
    (e : EventedImpl ρ) (w : W) (g : Registry) (t : Token) (i : Interests)
    (s : RegistryState) :
    runProg e (blanketRegisterBody deref w g t i) s =
      ((e.register (deref w) g t i s).1, (e.register (deref w) g t i s).2,
        [EvCall.register (deref w) g t i]) ∧
    runProg e (blanketReregisterBody deref w g t i) s =
      ((e.reregister (deref w) g t i s).1, (e.reregister (deref w) g t i s).2,
        [EvCall.reregister (deref w) g t i]) ∧
    runProg e (blanketDeregisterBody deref w g) s =
      ((e.deregister (deref w) g s).1, (e.deregister (deref w) g s).2,
        [EvCall.deregister (deref w) g]) :=
  ⟨rfl, rfl, rfl⟩

/-- Claim C9: the blanket rule covers unsized targets: a box of a
dynamically-typed registrable resource (trait object) is itself directly
registrable and behaves identically to the concrete value the object
holds; more generally any transparent pointer to a trait object forwards
to the dispatched concrete implementation. -/
theorem blanket_covers_unsized {ρ : Type u} (e : EventedImpl ρ) (v : ρ) (g : Registry)
    (t : Token) (i : Interests) (s : RegistryState) :
    ((blanketImpl Box.unbox dynEvented).register (Box.mk ⟨ρ, e, v⟩) g t i s =
        e.register v g t i s ∧
      (blanketImpl Box.unbox dynEvented).reregister (Box.mk ⟨ρ, e, v⟩) g t i s =
        e.reregister v g t i s ∧
      (blanketImpl Box.unbox dynEvented).deregister (Box.mk ⟨ρ, e, v⟩) g s =
        e.deregister v g s) ∧
    ∀ (W : Type (u + 1)) (d : W → DynEvented) (x : W),
      (blanketImpl d dynEvented).register x g t i s =
        (d x).impl.register (d x).val g t i s ∧
      (blanketImpl d dynEvented).reregister x g t i s =
        (d x).impl.reregister (d x).val g t i s ∧
      (blanketImpl d dynEvented).deregister x g s =
        (d x).impl.deregister (d x).val g s :=
  ⟨⟨rfl, rfl, rfl⟩, fun _ _ _ => ⟨rfl, rfl, rfl⟩⟩

/-- Claim C10: the condition for automatic forwarding is solely transparent
access to a capability-satisfying target: it applies to every such type
unconditionally, including a wrapper carrying registration state of its
own (here a counter), which is not a pure ownership wrapper in the spec
sense; its operations are always exactly the forwarded ones, so the extra
state can never influence them. -/
theorem blanket_applies_unconditionally {ρ : Type u} (e : EventedImpl ρ) (inner : ρ)
    (n m : Nat) (g : Registry) (t : Token) (i : Interests) (s : RegistryState) :
    ((blanketImpl (Prod.fst : ρ × Nat → ρ) e).register (inner, n) g t i s =
        e.register inner g t i s ∧
      (blanketImpl (Prod.fst : ρ × Nat → ρ) e).reregister (inner, n) g t i s =
        e.reregister inner g t i s ∧
      (blanketImpl (Prod.fst : ρ × Nat → ρ) e).deregister (inner, n) g s =
        e.deregister inner g s) ∧
    ((blanketImpl (Prod.fst : ρ × Nat → ρ) e).register (inner, n) g t i s =
        (blanketImpl (Prod.fst : ρ × Nat → ρ) e).register (inner, m) g t i s ∧
      (blanketImpl (Prod.fst : ρ × Nat → ρ) e).reregister (inner, n) g t i s =
        (blanketImpl (Prod.fst : ρ × Nat → ρ) e).reregister (inner, m) g t i s ∧
      (blanketImpl (Prod.fst : ρ × Nat → ρ) e).deregister (inner, n) g s =
        (blanketImpl (Prod.fst : ρ × Nat → ρ) e).deregister (inner, m) g s) :=
  ⟨⟨rfl, rfl, rfl⟩, ⟨rfl, rfl, rfl⟩⟩

/-- Helper: a resource with no active association contributes no entries
to the association list. -/
theorem lookup_none_count {s : RegistryState} {r : Nat} (h : s.lookup r = none) :
    s.assocCount r = 0 := by
  have h1 : s.assoc.find? (fun p => p.1 == r) = none := by
    simpa [RegistryState.lookup] using h
  rw [List.find?_eq_none] at h1
  rw [RegistryState.assocCount, List.countP_eq_zero]
  exact h1

/-- Helper: after prepending an association for `r`, lookup of `r` finds it. -/
theorem lookup_cons_self (l : List (Nat × Token × Interests)) (r : Nat) (t : Token)
    (i : Interests) :
    (RegistryState.mk ((r, t, i) :: l)).lookup r = some (t, i) := by
  simp [RegistryState.lookup, List.find?]

/-- Helper: after filtering out every association of `r`, lookup of `r`
finds nothing. -/
theorem lookup_filter_self (l : List (Nat × Token × Interests)) (r : Nat) :
    (RegistryState.mk (l.filter (fun p => !(p.1 == r)))).lookup r = none := by
  rw [RegistryState.lookup, Option.map_eq_none']
  rw [List.find?_eq_none]
  intro p hp
  have h := (List.mem_filter.mp hp).2
  simp at h
  simp [h]

/-- Claim C3: any error produced by the inner operation is returned by the
blanket-forwarded operation to the immediate caller as the same error
value, with the inner state change kept as is, and the body performed
exactly that one inner call, so the error is neither swallowed nor
retried; the operations are total functions, so no panic or abort can
replace the error value. -/
theorem blanket_error_propagation {W : Type v} {ρ : Type u} (deref : W → ρ)
    (e : EventedImpl ρ) (w : W) (g : Registry) (t : Token) (i : Interests)
    (s s' : RegistryState) (err : IoError) :
    (e.register (deref w) g t i s = (Except.error err, s') →
      (blanketImpl deref e).register w g t i s = (Except.error err, s') ∧
      (runProg e (blanketRegisterBody deref w g t i) s).2.2 =
        [EvCall.register (deref w) g t i]) ∧
    (e.reregister (deref w) g t i s = (Except.error err, s') →
      (blanketImpl deref e).reregister w g t i s = (Except.error err, s') ∧
      (runProg e (blanketReregisterBody deref w g t i) s).2.2 =
        [EvCall.reregister (deref w) g t i]) ∧
    (e.deregister (deref w) g s = (Except.error err, s') →
      (blanketImpl deref e).deregister w g s = (Except.error err, s') ∧
      (runProg e (blanketDeregisterBody deref w g) s).2.2 =
        [EvCall.deregister (deref w) g]) :=
  ⟨fun h => ⟨h, rfl⟩, fun h => ⟨h, rfl⟩, fun h => ⟨h, rfl⟩⟩

/-- Witness for claim C3 at a concrete failing inner implementation. -/
theorem blanket_error_propagation_witness :
    ((blanketImpl (fun b : Box Unit => b.unbox) failImpl).register (Box.mk ()) 0 1
        Interests.readable ⟨[]⟩ = (Except.error (IoError.sysError 9), ⟨[]⟩) ∧
      (runProg failImpl (blanketRegisterBody (fun b : Box Unit => b.unbox) (Box.mk ()) 0 1
          Interests.readable) ⟨[]⟩).2.2 = [EvCall.register () 0 1 Interests.readable]) ∧
    ((blanketImpl (fun b : Box Unit => b.unbox) failImpl).reregister (Box.mk ()) 0 1
        Interests.readable ⟨[]⟩ = (Except.error (IoError.sysError 9), ⟨[]⟩) ∧
      (runProg failImpl (blanketReregisterBody (fun b : Box Unit => b.unbox) (Box.mk ()) 0 1
          Interests.readable) ⟨[]⟩).2.2 = [EvCall.reregister () 0 1 Interests.readable]) ∧
    ((blanketImpl (fun b : Box Unit => b.unbox) failImpl).deregister (Box.mk ()) 0
        ⟨[]⟩ = (Except.error (IoError.sysError 9), ⟨[]⟩) ∧
      (runProg failImpl (blanketDeregisterBody (fun b : Box Unit => b.unbox) (Box.mk ()) 0)
          ⟨[]⟩).2.2 = [EvCall.deregister () 0]) :=
  ⟨(blanket_error_propagation (fun b : Box Unit => b.unbox) failImpl (Box.mk ()) 0 1
      Interests.readable ⟨[]⟩ ⟨[]⟩ (IoError.sysError 9)).1 rfl,
    (blanket_error_propagation (fun b : Box Unit => b.unbox) failImpl (Box.mk ()) 0 1
      Interests.readable ⟨[]⟩ ⟨[]⟩ (IoError.sysError 9)).2.1 rfl,
    (blanket_error_propagation (fun b : Box Unit => b.unbox) failImpl (Box.mk ()) 0 1
      Interests.readable ⟨[]⟩ ⟨[]⟩ (IoError.sysError 9)).2.2 rfl⟩

/-- Claim C4: after a successful register of resource `r`, a second
register on the same registry without an intervening deregister fails with
the already-registered error, leaves the state unchanged (so the call
neither panics nor silently succeeds), and exactly one association for `r`
exists. -/
theorem register_twice_fails (r : Nat) (g : Registry) (t : Token) (i : Interests)
    (t' : Token) (i' : Interests) (s s1 : RegistryState)
    (h : sysEvented.register r g t i s = (Except.ok (), s1)) :
    sysEvented.register r g t' i' s1 = (Except.error IoError.alreadyRegistered, s1) ∧
    s1.assocCount r = 1 := by
  have h' : registryRegister s r t i = (Except.ok (), s1) := h
  cases h0 : s.lookup r with
  | some v => simp [registryRegister, h0] at h'
  | none =>
      rw [registryRegister, h0] at h'
      have hs1 : s1 = ⟨(r, t, i) :: s.assoc⟩ := (Prod.mk.injEq _ _ _ _ ▸ h').2.symm
      subst hs1
      constructor
      · show registryRegister ⟨(r, t, i) :: s.assoc⟩ r t' i' = _
        rw [registryRegister, lookup_cons_self]
      · have hc := lookup_none_count h0
        rw [RegistryState.assocCount] at hc ⊢
        simp [List.countP_cons, hc]

/-- Witness for claim C4 at a concrete registry state. -/
theorem register_twice_fails_witness :
    sysEvented.register 1 0 9 Interests.writable ⟨[(1, 5, Interests.readable)]⟩ =
      (Except.error IoError.alreadyRegistered, ⟨[(1, 5, Interests.readable)]⟩) ∧
    RegistryState.assocCount ⟨[(1, 5, Interests.readable)]⟩ 1 = 1 :=
  register_twice_fails 1 0 5 Interests.readable 9 Interests.writable ⟨[]⟩
    ⟨[(1, 5, Interests.readable)]⟩ rfl

/-- Claim C5: calling reregister on a registry holding no association for
the resource (no successful register has happened) fails with the
not-registered error and leaves the state unchanged, creating no
association as a side effect. -/
theorem reregister_unregistered_fails (r : Nat) (g : Registry) (t : Token)
    (i : Interests) (s : RegistryState) (h : s.lookup r = none) :
    sysEvented.reregister r g t i s = (Except.error IoError.notRegistered, s) := by
  show registryReregister s r t i = _
  rw [registryReregister, h]

/-- Witness for claim C5 at a concrete registry state. -/
theorem reregister_unregistered_fails_witness :
    (RegistryState.mk [(2, 4, Interests.writable)]).lookup 1 = none ∧
    sysEvented.reregister 1 0 5 Interests.readable ⟨[(2, 4, Interests.writable)]⟩ =
      (Except.error IoError.notRegistered, ⟨[(2, 4, Interests.writable)]⟩) :=
  ⟨rfl, reregister_unregistered_fails 1 0 5 Interests.readable
    ⟨[(2, 4, Interests.writable)]⟩ rfl⟩

/-- Claim C6: a second deregister immediately after a successful deregister,
with no intervening register, fails with the not-registered error rather
than silently succeeding, and leaves the state unchanged. -/
theorem deregister_twice_fails (r : Nat) (g : Registry) (s s1 : RegistryState)
    (h : sysEvented.deregister r g s = (Except.ok (), s1)) :
    sysEvented.deregister r g s1 = (Except.error IoError.notRegistered, s1) := by
  have h' : registryDeregister s r = (Except.ok (), s1) := h
  cases h0 : s.lookup r with
  | none => simp [registryDeregister, h0] at h'
  | some v =>
      rw [registryDeregister, h0] at h'
      have hs1 : s1 = ⟨s.assoc.filter (fun p => !(p.1 == r))⟩ :=
        (Prod.mk.injEq _ _ _ _ ▸ h').2.symm
      subst hs1
      show registryDeregister _ r = _
      rw [registryDeregister, lookup_filter_self]

/-- Witness for claim C6 at a concrete registry state. -/
theorem deregister_twice_fails_witness :
    sysEvented.deregister 1 0 ⟨[]⟩ = (Except.error IoError.notRegistered, ⟨[]⟩) :=
  deregister_twice_fails 1 0 ⟨[(1, 5, Interests.readable)]⟩ ⟨[]⟩ rfl

/-- Claim C7: after a successful register followed by a successful
deregister, the resource is eligible again: a fresh register with the same
or different token and interests succeeds on the resulting state, and on
any registry state holding no association for it. -/
theorem register_deregister_register_ok (r : Nat) (g : Registry) (t t' : Token)
    (i i' : Interests) (s s1 s2 : RegistryState)
    (_h1 : sysEvented.register r g t i s = (Except.ok (), s1))
    (h2 : sysEvented.deregister r g s1 = (Except.ok (), s2)) :
    sysEvented.register r g t' i' s2 =
      (Except.ok (), RegistryState.mk ((r, t', i') :: s2.assoc)) ∧
    ∀ s3 : RegistryState, s3.lookup r = none →
      sysEvented.register r g t' i' s3 =
        (Except.ok (), RegistryState.mk ((r, t', i') :: s3.assoc)) := by
  have hgen : ∀ s3 : RegistryState, s3.lookup r = none →
      sysEvented.register r g t' i' s3 =
        (Except.ok (), RegistryState.mk ((r, t', i') :: s3.assoc)) := by
    intro s3 h3
    show registryRegister s3 r t' i' = _
    rw [registryRegister, h3]
  have h2' : registryDeregister s1 r = (Except.ok (), s2) := h2
  cases h0 : s1.lookup r with
  | none => simp [registryDeregister, h0] at h2'
  | some v =>
      rw [registryDeregister, h0] at h2'
      have hs2 : s2 = ⟨s1.assoc.filter (fun p => !(p.1 == r))⟩ :=
        (Prod.mk.injEq _ _ _ _ ▸ h2').2.symm
      refine ⟨hgen s2 ?_, hgen⟩
      rw [hs2]
      exact lookup_filter_self s1.assoc r

/-- Witness for claim C7 on a concrete register, deregister, register
sequence. -/
theorem register_deregister_register_ok_witness :
    sysEvented.register 1 0 7 Interests.readableWritable ⟨[]⟩ =
      (Except.ok (), RegistryState.mk [(1, 7, Interests.readableWritable)]) ∧
    ((RegistryState.mk [(2, 4, Interests.writable)]).lookup 1 = none →
      sysEvented.register 1 0 7 Interests.readableWritable ⟨[(2, 4, Interests.writable)]⟩ =
        (Except.ok (), RegistryState.mk [(1, 7, Interests.readableWritable),
          (2, 4, Interests.writable)])) :=
  ⟨(register_deregister_register_ok 1 0 5 7 Interests.readable Interests.readableWritable
      ⟨[]⟩ ⟨[(1, 5, Interests.readable)]⟩ ⟨[]⟩ rfl rfl).1,
    (register_deregister_register_ok 1 0 5 7 Interests.readable Interests.readableWritable
      ⟨[]⟩ ⟨[(1, 5, Interests.readable)]⟩ ⟨[]⟩ rfl rfl).2 ⟨[(2, 4, Interests.writable)]⟩⟩

end Mio
